import Mathlib

/-!
Verification of the collectd rust plugin bridge: the logging bridge
(src/api/logger.rs) and the plugin capability/lifecycle dispatch
(src/plugins.rs), shallowly embedded in Lean.

Bytes are modelled as `Nat` (values of Rust `u8`), byte strings as
`List Nat`.  The host sink call `plugin_log(level, ptr)` is modelled as a
`SinkCall` value recording the severity integer and the full byte buffer
whose address is handed over.
-/

namespace Collectd

/-! ## Severity constants

From the generated collectd bindings (syslog-style codes in the collectd
plugin header): LOG_ERR = 3, LOG_WARNING = 4, LOG_NOTICE = 5, LOG_INFO = 6,
LOG_DEBUG = 7. -/

def LOG_ERR : Nat := 3
def LOG_WARNING : Nat := 4
def LOG_NOTICE : Nat := 5
def LOG_INFO : Nat := 6
def LOG_DEBUG : Nat := 7

/-- The available levels that collectd exposes to log messages
(`enum LogLevel` in src/api/logger.rs, `repr(u32)` with the collectd
severity codes as discriminants). -/
inductive LogLevel where
  | Error
  | Warning
  | Notice
  | Info
  | Debug
  deriving DecidableEq, Repr

/-- The numeric value of a `LogLevel` (the `lvl as u32` / `lvl as i32` cast
on the `repr(u32)` enum). -/
def LogLevel.toU32 : LogLevel → Nat
  | .Error => LOG_ERR
  | .Warning => LOG_WARNING
  | .Notice => LOG_NOTICE
  | .Info => LOG_INFO
  | .Debug => LOG_DEBUG

/-- Embeds `LogLevel::try_from` (src/api/logger.rs lines 288-297): attempts to
convert a u32 collectd logging level into the enum; unrecognized codes map
to `none`. -/
def LogLevel.try_from (s : Nat) : Option LogLevel :=
  if s = LOG_ERR then some LogLevel.Error
  else if s = LOG_WARNING then some LogLevel.Warning
  else if s = LOG_NOTICE then some LogLevel.Notice
  else if s = LOG_INFO then some LogLevel.Info
  else if s = LOG_DEBUG then some LogLevel.Debug
  else none

/-- The log crate severity scale (external dependency `log`):
five levels, Error the least verbose, Trace the most verbose. -/
inductive Level where
  | Error
  | Warn
  | Info
  | Debug
  | Trace
  deriving DecidableEq, Repr

/-- Embeds `impl From<Level> for LogLevel` (src/api/logger.rs lines 300-309):
Error maps to Error, Warn to Warning, Info to Info, and both Debug and
Trace collapse to Debug. -/
def LogLevel.fromLevel : Level → LogLevel
  | .Error => LogLevel.Error
  | .Warn => LogLevel.Warning
  | .Info => LogLevel.Info
  | .Debug => LogLevel.Debug
  | .Trace => LogLevel.Debug

/-- The log crate `LevelFilter` scale (external dependency `log`):
`Off` plus the five levels. -/
inductive LevelFilter where
  | Off
  | Error
  | Warn
  | Info
  | Debug
  | Trace
  deriving DecidableEq, Repr

/-- Verbosity rank of a `Level` (1 = Error .. 5 = Trace). -/
def Level.severity : Level → Nat
  | .Error => 1
  | .Warn => 2
  | .Info => 3
  | .Debug => 4
  | .Trace => 5

/-- Verbosity rank of a `LevelFilter` (0 = Off .. 5 = Trace). -/
def LevelFilter.rank : LevelFilter → Nat
  | .Off => 0
  | .Error => 1
  | .Warn => 2
  | .Info => 3
  | .Debug => 4
  | .Trace => 5

/-- A level passes a level filter when its rank does not exceed the
filter's rank (the log crate ordering). -/
def levelEnabled (l : Level) (f : LevelFilter) : Bool :=
  decide (l.severity ≤ f.rank)

/-! ## Log records and the sink -/

/-- A log record of the log crate: level, optional module path, and the
message text (`record.args()`), as bytes. -/
structure Record where
  level : Level
  module_path : Option (List Nat)
  args : List Nat
  deriving DecidableEq, Repr

/-- One invocation of the host sink `plugin_log(level, ptr)`: the severity
integer and the bytes of the buffer whose address is handed over. -/
structure SinkCall where
  level : Nat
  bytes : List Nat
  deriving DecidableEq, Repr

/-- What the host observes through the `char` pointer it is handed: the
bytes up to (excluding) the first null terminator. -/
def cStrView (bs : List Nat) : List Nat :=
  bs.takeWhile (fun b => b != 0)

/-! ## Filter and format (env_logger filter, src/api/logger.rs Format)

The filter is the env_logger `filter::Filter` (external dependency):
`enabled` checks the record metadata against the compiled directives,
`matches` additionally checks the optional message regex.  We model the
built filter by its two predicates plus the maximum level it reports. -/

/-- A built env_logger filter: the directive predicate over record
metadata (`enabled`), the optional message-regex predicate (part of
`matches`), and the maximum `LevelFilter` it reports (`filter()`). -/
structure FilterBuilt where
  enabledFn : Record → Bool
  msgMatchFn : Record → Bool
  filterLevel : LevelFilter

/-- Embeds `Filter::matches` of env_logger: the directive check plus the optional
message filter. -/
def FilterBuilt.matchesR (f : FilterBuilt) (r : Record) : Bool :=
  f.enabledFn r && f.msgMatchFn r

/-- A formatting function (`FormatFn` in src/api/logger.rs).  A formatter
receives a sequential write-only sink, so it is characterized by the bytes
it writes for a record together with the success flag of its `io::Result`. -/
def FormatFn : Type :=
  Record → List Nat × Bool

/-- Embeds `struct Format` (src/api/logger.rs lines 123-126): an optional custom
format function. -/
structure Format where
  custom_format : Option FormatFn

/-- The default format of `Format::into_boxed_fn` (src/api/logger.rs lines
133-139): writes the module path followed by a colon and space when the
record has one, then the message. -/
def defaultFormat : FormatFn := fun r =>
  ((match r.module_path with
    | some p => p ++ [58, 32]
    | none => []) ++ r.args, true)

/-- Embeds `Format::into_boxed_fn` (src/api/logger.rs lines 128-142): the custom
format function when one was set, else the default format. -/
def Format.into_boxed_fn (f : Format) : FormatFn :=
  match f.custom_format with
  | some g => g
  | none => defaultFormat

/-! ## The thread-local scratch buffer and the cursor

`Vec<u8>` is modelled by its contents plus a capacity that never shrinks;
`Cursor::new(v)` starts at position 0 and `io::Write` on it overwrites
from the position and extends past the end. -/

/-- A `Vec<u8>`: contents and capacity.  `clear()` empties the contents
and keeps the capacity. -/
structure Buffer where
  data : List Nat
  cap : Nat
  deriving DecidableEq, Repr

/-- Embeds `Cursor<Vec<u8>>`: the vector contents, the write position, and the
vector capacity. -/
structure Cursor where
  data : List Nat
  pos : Nat
  cap : Nat
  deriving DecidableEq, Repr

/-- A write through a `Cursor<Vec<u8>>`: overwrite from the position,
extending the vector when the write runs past the end; capacity grows to
at least the new length and never shrinks. -/
def Cursor.write (c : Cursor) (w : List Nat) : Cursor :=
  let d := c.data.take c.pos ++ w ++ c.data.drop (c.pos + w.length)
  { data := d, pos := c.pos + w.length, cap := max c.cap d.length }

/-! ## The collectd logger (src/api/logger.rs lines 144-205) -/

/-- Embeds `struct CollectdLogger`: the built filter, the optional plugin-name
prefix, and the boxed format function. -/
structure CollectdLogger where
  filter : FilterBuilt
  plugin : Option (List Nat)
  format : FormatFn

/-- Embeds `CollectdLogger::matches` (src/api/logger.rs lines 196-198). -/
def CollectdLogger.matches (l : CollectdLogger) (r : Record) : Bool :=
  l.filter.matchesR r

/-- The `Log::enabled` impl (src/api/logger.rs lines 151-153). -/
def CollectdLogger.enabled (l : CollectdLogger) (r : Record) : Bool :=
  l.filter.enabledFn r

/-- Embeds `CollectdLogger::filter` (src/api/logger.rs lines 202-204): the
maximum `LevelFilter` this logger is configured to output. -/
def CollectdLogger.filterLevel (l : CollectdLogger) : LevelFilter :=
  l.filter.filterLevel

/-- Embeds `Log::log` for `CollectdLogger` (src/api/logger.rs lines 155-189),
as a function of the calling thread's scratch buffer.  Returns the buffer
stored back into the thread-local slot and the list of host sink calls
made.  When the record matches: take the buffer, wrap it in a cursor,
write the `"name: "` prefix when a plugin name is configured, run the
formatter; on formatter success push a trailing null and hand the buffer
with the mapped severity to `plugin_log`; either way clear the vector and
put it back. -/
def CollectdLogger.log (l : CollectdLogger) (r : Record) (buf : Buffer) :
    Buffer × List SinkCall :=
  if l.matches r then
    let c0 : Cursor := { data := buf.data, pos := 0, cap := buf.cap }
    let c1 : Cursor :=
      match l.plugin with
      | some p => c0.write (p ++ [58, 32])
      | none => c0
    let res := l.format r
    let c2 := c1.write res.1
    if res.2 then
      let nv := c2.data ++ [0]
      ({ data := [], cap := max c2.cap nv.length },
       [{ level := (LogLevel.fromLevel r.level).toU32, bytes := nv }])
    else
      ({ data := [], cap := c2.cap }, [])
  else (buf, [])

/-- The `Log::flush` impl (src/api/logger.rs line 191): a no-op. -/
def CollectdLogger.flushLog (_l : CollectdLogger) : Unit := ()

/-- The thread-local `LOG_BUF` before the first log call on a thread:
`Vec::new()`, empty with zero capacity. -/
def initialBuffer : Buffer :=
  { data := [], cap := 0 }

/-- A sequence of `log` calls on one thread, chaining the scratch buffer. -/
def CollectdLogger.logSeq (l : CollectdLogger) (buf : Buffer) :
    List Record → Buffer
  | [] => buf
  | r :: rs => l.logSeq (l.log r buf).1 rs

/-- The prefix bytes written before the formatter output: the plugin name
followed by a colon and a space, or nothing when no prefix is configured. -/
def CollectdLogger.prefixBytes (l : CollectdLogger) : List Nat :=
  match l.plugin with
  | some p => p ++ [58, 32]
  | none => []

/-- The full payload assembled in the scratch buffer before the trailing
null: prefix bytes followed by the formatter output. -/
def CollectdLogger.assembled (l : CollectdLogger) (r : Record) : List Nat :=
  l.prefixBytes ++ (l.format r).1

/-! ## The direct path `collectd_log` (src/api/logger.rs lines 220-227)

`CString::new(message)` fails exactly when the message contains a null
byte, and `.expect(..)` turns that failure into a panic; we model the
panic as `none`.  Otherwise the null-terminated message is handed to
`plugin_log` with the given severity. -/

/-- Embeds `collectd_log(lvl, message)`: `none` models the panic on an interior
null byte; otherwise the single sink call made. -/
def collectd_log (lvl : LogLevel) (message : List Nat) : Option SinkCall :=
  if 0 ∈ message then none
  else some { level := lvl.toU32, bytes := message ++ [0] }

/-! ## The logger builder and the process-wide logger slot

`CollectdLoggerBuilder` (src/api/logger.rs lines 48-121) wraps an
env_logger `filter::Builder`.  The claims only exercise `filter_level`,
so the filter builder is modelled by the level directive it accumulates
(env_logger builds a default `Error` directive when none was added). -/

/-- The env_logger `filter::Builder` (external dependency), restricted to
the directives the claims exercise: the level directive set by
`filter_level`, if any. -/
structure FilterBuilder where
  level : Option LevelFilter

/-- The default filter builder: no directives. -/
def FilterBuilder.new : FilterBuilder :=
  { level := none }

/-- Embeds `filter::Builder::filter_level`: set a bare level directive. -/
def FilterBuilder.filter_level (_b : FilterBuilder) (l : LevelFilter) :
    FilterBuilder :=
  { level := some l }

/-- Embeds `filter::Builder::build`: compile the directives.  With only a level
directive, a record is enabled when its level passes that level; with no
directives env_logger falls back to a default `Error` directive.  No
message regex is configured, so the message predicate is constant true. -/
def FilterBuilder.build (b : FilterBuilder) : FilterBuilt :=
  let ml := b.level.getD LevelFilter.Error
  { enabledFn := fun r => levelEnabled r.level ml,
    msgMatchFn := fun _ => true,
    filterLevel := ml }

/-- Embeds `struct CollectdLoggerBuilder` (src/api/logger.rs lines 48-53): the
filter builder, the optional plugin-name prefix, and the format. -/
structure CollectdLoggerBuilder where
  filter : FilterBuilder
  plugin : Option (List Nat)
  format : Format

/-- Embeds `CollectdLoggerBuilder::new` (src/api/logger.rs lines 59-61):
all defaults. -/
def CollectdLoggerBuilder.new : CollectdLoggerBuilder :=
  { filter := FilterBuilder.new, plugin := none,
    format := { custom_format := none } }

/-- Embeds `CollectdLoggerBuilder::prefix_plugin` (src/api/logger.rs lines
82-85): record the plugin name as the message prefix. -/
def CollectdLoggerBuilder.prefix_plugin (b : CollectdLoggerBuilder)
    (name : List Nat) : CollectdLoggerBuilder :=
  { b with plugin := some name }

/-- Embeds `CollectdLoggerBuilder::filter_level` (src/api/logger.rs lines
89-92). -/
def CollectdLoggerBuilder.filter_level (b : CollectdLoggerBuilder)
    (l : LevelFilter) : CollectdLoggerBuilder :=
  { b with filter := b.filter.filter_level l }

/-- The error of `log::set_boxed_logger` when a logger is already
installed (`SetLoggerError` of the log crate). -/
inductive SetLoggerError where
  | alreadySet
  deriving DecidableEq, Repr

/-- The process-wide state of the log crate (external dependency): the
global maximum level set by `log::set_max_level`, and the installed
boxed logger, if any. -/
structure LogGlobalState where
  maxLevel : LevelFilter
  logger : Option CollectdLogger

/-- The log crate state at process start: max level `Off`, no logger. -/
def LogGlobalState.start : LogGlobalState :=
  { maxLevel := LevelFilter.Off, logger := none }

/-- Embeds `log::set_max_level`: unconditionally store the given level. -/
def LogGlobalState.set_max_level (st : LogGlobalState) (l : LevelFilter) :
    LogGlobalState :=
  { st with maxLevel := l }

/-- Embeds `log::set_boxed_logger`: install the logger when none is installed,
else fail with `SetLoggerError` and leave the state unchanged. -/
def LogGlobalState.set_boxed_logger (st : LogGlobalState)
    (l : CollectdLogger) : LogGlobalState × Except SetLoggerError Unit :=
  match st.logger with
  | some _ => (st, Except.error SetLoggerError.alreadySet)
  | none => ({ st with logger := some l }, Except.ok ())

/-- Embeds `CollectdLoggerBuilder::try_init` (src/api/logger.rs lines 69-78):
build the `CollectdLogger` from the accumulated filter, prefix and
format, call `log::set_max_level(logger.filter())`, then
`log::set_boxed_logger`. -/
def CollectdLoggerBuilder.try_init (b : CollectdLoggerBuilder)
    (st : LogGlobalState) : LogGlobalState × Except SetLoggerError Unit :=
  let logger : CollectdLogger :=
    { filter := b.filter.build,
      plugin := b.plugin,
      format := b.format.into_boxed_fn }
  let st1 := st.set_max_level logger.filterLevel
  st1.set_boxed_logger logger

/-! ## Plugin object model (src/plugins.rs) -/

/-- One opaque parsed unit of the host configuration tree (the `api`
module is not under src/; the claims never inspect it). -/
structure ConfigItem where
  key : String
  deriving DecidableEq, Repr

/-- An opaque batch of reported data points handed to `write_values`
(the `api` module is not under src/; the claims never inspect it). -/
structure ValueList where
  values : List Int
  deriving DecidableEq, Repr

/-- A flush timeout duration, opaque to this layer. -/
def Duration : Type := Int

/-- The boxed error type of the plugin methods
(`Box<dyn error::Error>`): either the distinguished `NotImplemented`
error of crate::errors, or any other error. -/
inductive BoxError where
  | notImplemented
  | other (msg : String)
  deriving DecidableEq, Repr

/-- Default body of `Plugin::log` (src/plugins.rs lines 93-95):
`Err(NotImplemented)?`. -/
def Plugin.default_log (_lvl : LogLevel) (_msg : List Nat) :
    Except BoxError Unit :=
  Except.error BoxError.notImplemented

/-- Default body of `Plugin::read_values` (src/plugins.rs lines
102-104): `Err(NotImplemented)?`. -/
def Plugin.default_read_values : Except BoxError Unit :=
  Except.error BoxError.notImplemented

/-- Default body of `Plugin::write_values` (src/plugins.rs lines
108-110): `Err(NotImplemented)?`. -/
def Plugin.default_write_values (_list : ValueList) : Except BoxError Unit :=
  Except.error BoxError.notImplemented

/-- Default body of `Plugin::flush` (src/plugins.rs lines 114-120):
`Err(NotImplemented)?`. -/
def Plugin.default_flush (_timeout : Option Duration)
    (_identifier : Option (List Nat)) : Except BoxError Unit :=
  Except.error BoxError.notImplemented

/-! ## Registration orchestrator: the config-seen flag

The `collectd_plugin!` macro (src/plugins.rs lines 125-170) wires the
host config and init callbacks to `internal::plugin_complex_config` and
`internal::plugin_init`, sharing the `CONFIG_SEEN` atomic boolean. -/

/-- A host-driven callback invocation relevant to the config-seen flag. -/
inductive HostEvent where
  | config (items : List ConfigItem)
  | init
  deriving DecidableEq, Repr

/-- Whether a host event is a config-callback invocation. -/
def HostEvent.isConfig : HostEvent → Bool
  | .config _ => true
  | .init => false

/-- A call made into the `PluginManager` by the callbacks. -/
inductive ManagerCall where
  | pluginsNone
  | pluginsSome (items : List ConfigItem)
  | initializeManager
  deriving DecidableEq, Repr

/-- Modelled from the spec: the bodies of `internal::plugin_complex_config`
and `internal::plugin_init` (module `internal`, not under src/; only the
`collectd_plugin!` macro that calls them is).  Per the spec, the config
callback sets the config-seen flag and calls `Manager.plugins(Some(items))`;
the init callback calls `Manager.plugins(None)` when the flag is still
false, and only `Manager.initialize()` when it is already true.  Input:
the flag before the event; output: the flag after it and the manager
calls the callback makes. -/
def stepCallback (seen : Bool) : HostEvent → Bool × List ManagerCall
  | .config items => (true, [ManagerCall.pluginsSome items])
  | .init =>
      (seen,
       if seen then [ManagerCall.initializeManager]
       else [ManagerCall.pluginsNone])

/-- Run a sequence of host events from a given flag value, collecting the
manager calls in order. -/
def runTrace (seen : Bool) : List HostEvent → Bool × List ManagerCall
  | [] => (seen, [])
  | e :: es =>
      let s1 := stepCallback seen e
      let s2 := runTrace s1.1 es
      (s2.1, s1.2 ++ s2.2)

/-- The config-seen flag after a trace of host events, starting from the
initial `false` (the `AtomicBool::new(false)` in `collectd_plugin!`). -/
def flagAfter (es : List HostEvent) : Bool :=
  (runTrace false es).1

/-- Executable success discriminator for plugin method results. -/
def isOkE : Except BoxError Unit → Bool
  | Except.ok _ => true
  | Except.error _ => false

/-! ## Helper lemmas -/

theorem Cursor.write_at_end (d w : List Nat) (cap : Nat) :
    Cursor.write { data := d, pos := d.length, cap := cap } w =
      { data := d ++ w, pos := (d ++ w).length,
        cap := max cap (d ++ w).length } := by
  have h1 : List.take d.length d = d := List.take_length d
  have h2 : List.drop (d.length + w.length) d = [] :=
    List.drop_eq_nil_of_le (Nat.le_add_right _ _)
  simp [Cursor.write, h1, h2]

theorem Cursor.write_on_empty (w : List Nat) (cap : Nat) :
    Cursor.write { data := [], pos := 0, cap := cap } w =
      { data := w, pos := w.length, cap := max cap w.length } := by
  simpa using Cursor.write_at_end [] w cap

theorem log_of_not_matches (l : CollectdLogger) (r : Record) (buf : Buffer)
    (hm : l.matches r = false) : l.log r buf = (buf, []) := by
  unfold CollectdLogger.log
  simp [hm]

theorem log_snd_on_empty_of_matches (l : CollectdLogger) (r : Record)
    (cap : Nat) (hm : l.matches r = true) :
    (l.log r { data := [], cap := cap }).2 =
      if (l.format r).2 then
        [{ level := (LogLevel.fromLevel r.level).toU32,
           bytes := l.assembled r ++ [0] }]
      else [] := by
  unfold CollectdLogger.log
  rw [hm]
  cases hp : l.plugin with
  | none =>
      simp only [if_true]
      rw [show (({ data := [], pos := 0, cap := cap } : Cursor)) =
        ({ data := ([] : List Nat), pos := ([] : List Nat).length,
           cap := cap } : Cursor) from rfl]
      rw [Cursor.write_at_end]
      split <;>
        simp [CollectdLogger.assembled, CollectdLogger.prefixBytes, hp]
  | some p =>
      simp only [if_true]
      rw [show (({ data := [], pos := 0, cap := cap } : Cursor)) =
        ({ data := ([] : List Nat), pos := ([] : List Nat).length,
           cap := cap } : Cursor) from rfl]
      rw [Cursor.write_at_end, Cursor.write_at_end]
      split <;>
        simp [CollectdLogger.assembled, CollectdLogger.prefixBytes, hp]

theorem log_fst_data_empty (l : CollectdLogger) (r : Record) (buf : Buffer)
    (hb : buf.data = []) : (l.log r buf).1.data = [] := by
  unfold CollectdLogger.log
  split
  · dsimp only
    split
    · rfl
    · rfl
  · exact hb

theorem log_cap_mono (l : CollectdLogger) (r : Record) (buf : Buffer) :
    buf.cap ≤ (l.log r buf).1.cap := by
  unfold CollectdLogger.log
  split
  · cases hp : l.plugin <;> dsimp only <;> split <;>
      simp [Cursor.write]
  · exact le_refl _

theorem log_snd_of_success (l : CollectdLogger) (r : Record) (buf : Buffer)
    (hm : l.matches r = true) (hf : (l.format r).2 = true)
    (hb : buf.data = []) :
    (l.log r buf).2 =
      [{ level := (LogLevel.fromLevel r.level).toU32,
         bytes := l.assembled r ++ [0] }] := by
  obtain ⟨bd, bc⟩ := buf
  replace hb : bd = [] := hb
  subst hb
  rw [log_snd_on_empty_of_matches l r bc hm, if_pos hf]

theorem log_snd_of_failure (l : CollectdLogger) (r : Record) (buf : Buffer)
    (hm : l.matches r = true) (hf : (l.format r).2 = false)
    (hb : buf.data = []) :
    (l.log r buf).2 = [] := by
  obtain ⟨bd, bc⟩ := buf
  replace hb : bd = [] := hb
  subst hb
  rw [log_snd_on_empty_of_matches l r bc hm, if_neg (by simp [hf])]

theorem logSeq_data_empty (l : CollectdLogger) (rs : List Record)
    (buf : Buffer) (hb : buf.data = []) :
    (l.logSeq buf rs).data = [] := by
  induction rs generalizing buf with
  | nil => exact hb
  | cons r rs ih =>
      exact ih _ (log_fst_data_empty l r buf hb)

theorem takeWhile_append_zero (xs : List Nat) :
    (xs ++ [0]).takeWhile (fun b => b != 0) =
      xs.takeWhile (fun b => b != 0) := by
  induction xs with
  | nil => rfl
  | cons x xs ih =>
      rw [List.cons_append, List.takeWhile_cons, List.takeWhile_cons]
      cases hx : (x != 0) <;> simp [hx, ih]

theorem takeWhile_length_lt_of_mem_zero (xs : List Nat) (h : 0 ∈ xs) :
    (xs.takeWhile (fun b => b != 0)).length < xs.length := by
  induction xs with
  | nil => cases h
  | cons x xs ih =>
      rw [List.takeWhile_cons]
      cases hx : (x != 0) with
      | false => simp
      | true =>
          have hx0 : x ≠ 0 := by simpa using hx
          have h0 : 0 ∈ xs := by
            rcases List.mem_cons.mp h with h | h
            · exact absurd h.symm hx0
            · exact h
          simpa [hx] using Nat.succ_lt_succ (ih h0)

theorem runTrace_fst (s : Bool) (es : List HostEvent) :
    (runTrace s es).1 = (s || es.any HostEvent.isConfig) := by
  induction es generalizing s with
  | nil => simp [runTrace]
  | cons e es ih =>
      cases e <;> simp [runTrace, stepCallback, HostEvent.isConfig, ih]

/-! ## Claims -/

/-- C5: for every value `l` of the internal five-level enumeration,
`LogLevel::try_from(l as u32)` returns `Some(l)` (host code to internal
level to host code is the identity on the five recognized codes), and for
every u32 outside the five recognized host severity codes `try_from`
returns `None`. -/
theorem try_from_roundtrip_and_unrecognized :
    (∀ l : LogLevel, LogLevel.try_from l.toU32 = some l) ∧
    (∀ n : Nat, n ≠ LOG_ERR → n ≠ LOG_WARNING → n ≠ LOG_NOTICE →
      n ≠ LOG_INFO → n ≠ LOG_DEBUG → LogLevel.try_from n = none) := by
  constructor
  · intro l
    cases l <;> rfl
  · intro n h1 h2 h3 h4 h5
    simp [LogLevel.try_from, h1, h2, h3, h4, h5]

/-- Witness for C5: the code 42 is outside the five recognized severity
codes, and `try_from 42` is `None`. -/
theorem try_from_roundtrip_and_unrecognized_witness :
    LogLevel.try_from 42 = none :=
  try_from_roundtrip_and_unrecognized.2 42 (by decide) (by decide)
    (by decide) (by decide) (by decide)

/-- C9: the mapping from the external five-plus-level logging severity
scale to the internal enumeration is total and lossy: Debug and Trace
both map to the internal Debug level, Error maps to Error, Warn to
Warning, Info to Info; the internal Notice level is never produced. -/
theorem fromLevel_total_and_lossy :
    LogLevel.fromLevel Level.Error = LogLevel.Error ∧
    LogLevel.fromLevel Level.Warn = LogLevel.Warning ∧
    LogLevel.fromLevel Level.Info = LogLevel.Info ∧
    LogLevel.fromLevel Level.Debug = LogLevel.Debug ∧
    LogLevel.fromLevel Level.Trace = LogLevel.Debug ∧
    (∀ lv : Level, LogLevel.fromLevel lv ∈
      [LogLevel.Error, LogLevel.Warning, LogLevel.Info, LogLevel.Debug]) := by
  refine ⟨rfl, rfl, rfl, rfl, rfl, ?_⟩
  intro lv
  cases lv <;> simp [LogLevel.fromLevel]

/-- C7: `collectd_log(level, message)` panics exactly when the message
contains a null byte; for every null-free message it hands exactly that
message, null-terminated, with the given severity to the host sink,
bypassing filter and formatter. -/
theorem collectd_log_null_contract :
    ∀ (lvl : LogLevel) (msg : List Nat),
      ((collectd_log lvl msg = none) ↔ 0 ∈ msg) ∧
      (0 ∉ msg →
        collectd_log lvl msg =
          some { level := lvl.toU32, bytes := msg ++ [0] }) := by
  intro lvl msg
  by_cases h : 0 ∈ msg <;> simp [collectd_log, h]

/-- Witness for C7: a concrete null-free message is handed through
null-terminated with severity 3 (Error). -/
theorem collectd_log_null_contract_witness :
    collectd_log LogLevel.Error [104, 105] =
      some { level := 3, bytes := [104, 105, 0] } :=
  (collectd_log_null_contract LogLevel.Error [104, 105]).2 (by decide)

/-- C8: each optional plugin method default (log, read_values,
write_values, flush) returns the distinguished NotImplemented error and
never succeeds; NotImplemented is distinguishable from any other error. -/
theorem plugin_defaults_not_implemented :
    (∀ (lvl : LogLevel) (msg : List Nat),
        Plugin.default_log lvl msg = Except.error BoxError.notImplemented ∧
        isOkE (Plugin.default_log lvl msg) = false) ∧
    (Plugin.default_read_values = Except.error BoxError.notImplemented ∧
      isOkE Plugin.default_read_values = false) ∧
    (∀ vl : ValueList,
        Plugin.default_write_values vl =
          Except.error BoxError.notImplemented ∧
        isOkE (Plugin.default_write_values vl) = false) ∧
    (∀ (t : Option Duration) (ident : Option (List Nat)),
        Plugin.default_flush t ident =
          Except.error BoxError.notImplemented ∧
        isOkE (Plugin.default_flush t ident) = false) ∧
    (∀ msg : String,
        decide (BoxError.notImplemented = BoxError.other msg) = false) :=
  ⟨fun _ _ => ⟨rfl, rfl⟩, ⟨rfl, rfl⟩, fun _ => ⟨rfl, rfl⟩,
   fun _ _ => ⟨rfl, rfl⟩, fun _ => rfl⟩

/-- C4: the config-seen flag starts false and is true after a trace
exactly when the trace contains a config-callback invocation (so it
transitions false to true at most once, on the first config callback);
an init callback fired when the flag is still false calls
`Manager.plugins(None)` exactly once, and an init callback fired when
the flag is already true does not invoke `plugins` and calls
`Manager.initialize()` only. -/
theorem config_seen_flag_gates_init :
    flagAfter [] = false ∧
    (∀ es : List HostEvent, flagAfter es = es.any HostEvent.isConfig) ∧
    (∀ pre : List HostEvent, flagAfter pre = false →
        stepCallback (flagAfter pre) HostEvent.init =
          (false, [ManagerCall.pluginsNone])) ∧
    (∀ pre : List HostEvent, flagAfter pre = true →
        stepCallback (flagAfter pre) HostEvent.init =
          (true, [ManagerCall.initializeManager])) := by
  refine ⟨rfl, fun es => by simpa using runTrace_fst false es, ?_, ?_⟩
  · intro pre h
    rw [h]
    rfl
  · intro pre h
    rw [h]
    rfl

/-- Witness for C4: with no prior config callback the init callback
calls `plugins(None)` exactly once; after one config callback it calls
`initialize` only. -/
theorem config_seen_flag_gates_init_witness :
    stepCallback (flagAfter []) HostEvent.init =
      (false, [ManagerCall.pluginsNone]) ∧
    stepCallback (flagAfter [HostEvent.config []]) HostEvent.init =
      (true, [ManagerCall.initializeManager]) :=
  ⟨config_seen_flag_gates_init.2.2.1 [] rfl,
   config_seen_flag_gates_init.2.2.2 [HostEvent.config []] rfl⟩

/-- C2: after every `log` call on a thread whose scratch buffer is empty,
the buffer is empty again and its capacity has not shrunk (truncated, not
deallocated), regardless of filter outcome or formatter success; hence
over any sequence of calls starting from the initial thread-local
`Vec::new()` the buffer length returns to zero after each call. -/
theorem scratch_buffer_reset_invariant :
    (∀ (l : CollectdLogger) (r : Record) (buf : Buffer), buf.data = [] →
        ((l.log r buf).1.data = [] ∧ buf.cap ≤ (l.log r buf).1.cap)) ∧
    (∀ (l : CollectdLogger) (rs : List Record),
        (l.logSeq initialBuffer rs).data = []) :=
  ⟨fun l r buf hb => ⟨log_fst_data_empty l r buf hb, log_cap_mono l r buf⟩,
   fun l rs => logSeq_data_empty l rs initialBuffer rfl⟩

/-- Witness for C2: a concrete logger whose formatter fails still leaves
the scratch buffer empty. -/
theorem scratch_buffer_reset_invariant_witness :
    (CollectdLogger.log
        { filter := { enabledFn := fun _ => true, msgMatchFn := fun _ => true,
                      filterLevel := LevelFilter.Trace },
          plugin := none,
          format := fun _ => ([70], false) }
        { level := Level.Info, module_path := none, args := [104] }
        initialBuffer).1.data = [] ∧
    initialBuffer.cap ≤
      (CollectdLogger.log
        { filter := { enabledFn := fun _ => true, msgMatchFn := fun _ => true,
                      filterLevel := LevelFilter.Trace },
          plugin := none,
          format := fun _ => ([70], false) }
        { level := Level.Info, module_path := none, args := [104] }
        initialBuffer).1.cap :=
  scratch_buffer_reset_invariant.1
    { filter := { enabledFn := fun _ => true, msgMatchFn := fun _ => true,
                  filterLevel := LevelFilter.Trace },
      plugin := none,
      format := fun _ => ([70], false) }
    { level := Level.Info, module_path := none, args := [104] }
    initialBuffer rfl

/-- C3: for every record the filter matches and whose formatter succeeds,
`log` invokes the host sink exactly once, with the severity obtained by
mapping the record level and with exactly the configured prefix bytes
(plugin name, colon, space; empty when no prefix is configured), then the
formatter output, then one terminating null byte; when the formatter
fails the sink is not invoked. -/
theorem log_sink_bytes_exact :
    ∀ (l : CollectdLogger) (r : Record) (buf : Buffer),
      l.matches r = true → buf.data = [] →
      (((l.format r).2 = true →
          (l.log r buf).2 =
            [{ level := (LogLevel.fromLevel r.level).toU32,
               bytes := l.prefixBytes ++ (l.format r).1 ++ [0] }]) ∧
       ((l.format r).2 = false → (l.log r buf).2 = [])) := by
  intro l r buf hm hb
  constructor
  · intro hf
    have h := log_snd_of_success l r buf hm hf hb
    simpa [CollectdLogger.assembled, List.append_assoc] using h
  · intro hf
    exact log_snd_of_failure l r buf hm hf hb

/-- Witness for C3: a concrete logger with prefix bytes `"p"` and default
format on a record with module path `"m"` and message `"hi"` produces one
sink call: severity 3, bytes `"p: m: hi"` plus the trailing null. -/
theorem log_sink_bytes_exact_witness :
    (CollectdLogger.log
        { filter := { enabledFn := fun _ => true, msgMatchFn := fun _ => true,
                      filterLevel := LevelFilter.Trace },
          plugin := some [112],
          format := defaultFormat }
        { level := Level.Error, module_path := some [109], args := [104, 105] }
        initialBuffer).2 =
      [{ level := 3, bytes := [112, 58, 32, 109, 58, 32, 104, 105, 0] }] :=
  (log_sink_bytes_exact
    { filter := { enabledFn := fun _ => true, msgMatchFn := fun _ => true,
                  filterLevel := LevelFilter.Trace },
      plugin := some [112],
      format := defaultFormat }
    { level := Level.Error, module_path := some [109], args := [104, 105] }
    initialBuffer rfl rfl).1 rfl

/-- C6: for every record the configured filter does not enable, `log` is
a no-op: no host sink call is made and the scratch buffer (the whole
result) is unchanged. -/
theorem log_noop_when_filter_disabled :
    ∀ (l : CollectdLogger) (r : Record) (buf : Buffer),
      l.enabled r = false → l.log r buf = (buf, []) := by
  intro l r buf h
  apply log_of_not_matches
  simp [CollectdLogger.matches, FilterBuilt.matchesR, CollectdLogger.enabled] at h ⊢
  simp [h]

/-- Witness for C6: a concrete logger whose filter enables nothing leaves
the buffer untouched and makes no sink call. -/
theorem log_noop_when_filter_disabled_witness :
    CollectdLogger.log
        { filter := { enabledFn := fun _ => false, msgMatchFn := fun _ => true,
                      filterLevel := LevelFilter.Off },
          plugin := none,
          format := defaultFormat }
        { level := Level.Info, module_path := none, args := [104] }
        { data := [], cap := 7 } =
      ({ data := [], cap := 7 }, []) :=
  log_noop_when_filter_disabled
    { filter := { enabledFn := fun _ => false, msgMatchFn := fun _ => true,
                  filterLevel := LevelFilter.Off },
      plugin := none,
      format := defaultFormat }
    { level := Level.Info, module_path := none, args := [104] }
    { data := [], cap := 7 } rfl

/-- C10: when the assembled bytes (prefix plus formatter output) contain
an interior null byte, `log` neither panics nor skips the record: it
still appends the trailing null and makes exactly one sink call with the
full bytes, and the C string the host observes through the pointer is
the assembled bytes truncated at the first null, a strict prefix (bytes
after the null are silently dropped) — unlike `collectd_log`, which
panics on the same bytes. -/
theorem log_interior_null_truncation :
    ∀ (l : CollectdLogger) (r : Record) (buf : Buffer) (lvl : LogLevel),
      l.matches r = true → (l.format r).2 = true → buf.data = [] →
      0 ∈ l.assembled r →
      ((l.log r buf).2 =
          [{ level := (LogLevel.fromLevel r.level).toU32,
             bytes := l.assembled r ++ [0] }] ∧
       cStrView (l.assembled r ++ [0]) =
         (l.assembled r).takeWhile (fun b => b != 0) ∧
       ((l.assembled r).takeWhile (fun b => b != 0)).length <
         (l.assembled r).length ∧
       collectd_log lvl (l.assembled r) = none) := by
  intro l r buf lvl hm hf hb h0
  refine ⟨log_snd_of_success l r buf hm hf hb, ?_,
    takeWhile_length_lt_of_mem_zero _ h0, by simp [collectd_log, h0]⟩
  simpa [cStrView] using takeWhile_append_zero (l.assembled r)

/-- Witness for C10: a formatter output `[65, 0, 66]` with an interior
null is still handed to the sink null-terminated, and the observed C
string is `[65]`, a strict prefix; `collectd_log` panics on the same
bytes. -/
theorem log_interior_null_truncation_witness :
    (CollectdLogger.log
        { filter := { enabledFn := fun _ => true, msgMatchFn := fun _ => true,
                      filterLevel := LevelFilter.Trace },
          plugin := none,
          format := fun r => (r.args, true) }
        { level := Level.Info, module_path := none, args := [65, 0, 66] }
        initialBuffer).2 =
      [{ level := 6, bytes := [65, 0, 66, 0] }] ∧
    cStrView [65, 0, 66, 0] = [65] ∧
    ([65] : List Nat).length < ([65, 0, 66] : List Nat).length ∧
    collectd_log LogLevel.Info [65, 0, 66] = none :=
  log_interior_null_truncation
    { filter := { enabledFn := fun _ => true, msgMatchFn := fun _ => true,
                  filterLevel := LevelFilter.Trace },
      plugin := none,
      format := fun r => (r.args, true) }
    { level := Level.Info, module_path := none, args := [65, 0, 66] }
    initialBuffer LogLevel.Info rfl rfl rfl (by decide)

/-! ## C1: a second `try_init`

Concrete scenario: a first builder with prefix `"my"` and filter level
Info installs successfully from the start state; a second builder with
filter level Trace then attempts to install. -/

/-- First builder: plugin prefix `"my"`, filter level Info. -/
def firstBuilder : CollectdLoggerBuilder :=
  (CollectdLoggerBuilder.new.prefix_plugin [109, 121]).filter_level
    LevelFilter.Info

/-- Second builder: no prefix, filter level Trace. -/
def secondBuilder : CollectdLoggerBuilder :=
  CollectdLoggerBuilder.new.filter_level LevelFilter.Trace

/-- The logger built by the first builder. -/
def firstLogger : CollectdLogger :=
  { filter := firstBuilder.filter.build,
    plugin := firstBuilder.plugin,
    format := firstBuilder.format.into_boxed_fn }

/-- State and result after the first install. -/
def firstInstall : LogGlobalState × Except SetLoggerError Unit :=
  firstBuilder.try_init LogGlobalState.start

/-- State and result after the second install attempt. -/
def secondInstall : LogGlobalState × Except SetLoggerError Unit :=
  secondBuilder.try_init firstInstall.1

/-- C1 counterexample: the second `try_init` does fail with the
logger-already-set error and leaves the installed logger (filter, prefix,
format) untouched, but it is not free of side effects on process-wide
logging state: `log::set_max_level` runs before the installation check,
so the failed call changes the process-wide max level from Info (the
first logger's level) to Trace (the second builder's level). -/
theorem try_init_second_install_counterexample :
    secondInstall.2 = Except.error SetLoggerError.alreadySet ∧
    secondInstall.1.logger = firstInstall.1.logger ∧
    firstInstall.1.maxLevel = LevelFilter.Info ∧
    secondInstall.1.maxLevel = LevelFilter.Trace ∧
    decide (LevelFilter.Trace = LevelFilter.Info) = false :=
  ⟨rfl, rfl, rfl, rfl, rfl⟩

/-- C1 amended: once a logger is installed, any further `try_init` fails
with the logger-already-set error and does not replace the installed
logger (its filter, prefix and format remain those of the first
installation), but the failed call does update one piece of process-wide
logging state: the global max level becomes the second builder's
effective filter level, because `log::set_max_level` runs before
`log::set_boxed_logger` detects the existing logger. -/
theorem try_init_after_install_fails_preserving_logger :
    ∀ (b : CollectdLoggerBuilder) (st : LogGlobalState)
      (l0 : CollectdLogger),
      st.logger = some l0 →
      ((b.try_init st).2 = Except.error SetLoggerError.alreadySet ∧
       (b.try_init st).1.logger = some l0 ∧
       (b.try_init st).1.maxLevel = b.filter.build.filterLevel) := by
  intro b st l0 h
  unfold CollectdLoggerBuilder.try_init
  simp [LogGlobalState.set_boxed_logger, LogGlobalState.set_max_level, h,
    CollectdLogger.filterLevel]

/-- Witness for C1 amended: with the first logger installed, the second
builder's `try_init` fails, keeps the first logger, and sets the global
max level to Trace, the second builder's filter level. -/
theorem try_init_after_install_fails_preserving_logger_witness :
    (secondBuilder.try_init firstInstall.1).2 =
      Except.error SetLoggerError.alreadySet ∧
    (secondBuilder.try_init firstInstall.1).1.logger = some firstLogger ∧
    (secondBuilder.try_init firstInstall.1).1.maxLevel =
      secondBuilder.filter.build.filterLevel :=
  try_init_after_install_fails_preserving_logger secondBuilder
    firstInstall.1 firstLogger rfl

end Collectd
